import Mathlib

/-!
Shallow embedding of the placeholder-cleaning utility in
src/llm_clean_data.py.  The program loads a tabular dataset, summarizes
the value frequencies of selected columns, asks a text-generation model
for a list of placeholder strings, and replaces exact matches of those
strings with the canonical missing-value marker.

Cells of the dataset are modelled as text, integers, or the missing
marker; these are the value kinds the program manipulates (the cleaning
pass compares cells against placeholder strings and writes the missing
marker, and the summarizer coerces every cell to text first).
-/

/-- Cell of a tabular dataset: a textual value, an integer value, or the
missing-value marker (NaN on load, pd.NA after cleaning). -/
inductive Cell where
  | str (s : String) : Cell
  | int (n : Int) : Cell
  | na : Cell
deriving DecidableEq

/-- Coercion of a cell to text, as performed by astype(str) on line 37:
text is unchanged, integers print in decimal, and the missing marker
becomes the literal text nan. -/
def cellToString : Cell → String
  | Cell.str s => s
  | Cell.int n => toString n
  | Cell.na => "nan"

/-- Matcher for the exponent part of the numeric-literal regular
expression of lines 41 and 43, i.e. ([eE][-+]?[0-9]+)? followed by the
end anchor: either the input is exhausted, or it is an e or E, an
optional sign, and one or more digits reaching the end. -/
def matchExpPart : List Char → Bool
  | [] => true
  | c :: rest =>
    if c == 'e' || c == 'E' then
      let rest2 := match rest with
        | s :: r => if s == '-' || s == '+' then r else s :: r
        | [] => []
      let pr := rest2.span Char.isDigit
      !(pr.1.isEmpty) && pr.2.isEmpty
    else false

/-- Matcher for the mantissa-and-exponent part [0-9]*\.?[0-9]+ of the
numeric-literal regular expression, starting after the optional sign.
Digit runs in the pattern are maximal (no digit can follow them), so
greedy scanning is exact: take the leading digits, then either a dot
followed by at least one digit, or at least one leading digit, and then
the exponent part. -/
def matchMantissaFrom (cs : List Char) : Bool :=
  let pr := cs.span Char.isDigit
  match pr.2 with
  | '.' :: rest2 =>
    let qr := rest2.span Char.isDigit
    !(qr.1.isEmpty) && matchExpPart qr.2
  | rest => !(pr.1.isEmpty) && matchExpPart rest

/-- Matcher for the full numeric-literal regular expression
of lines 41 and 43 with both anchors: an optional sign, then the
mantissa and exponent parts consuming the whole input.  A leading sign
must be consumed by the sign group, since the following groups accept
only digits or a dot. -/
def matchesNumericRegex : List Char → Bool
  | c :: rest => if c == '-' || c == '+' then matchMantissaFrom rest else matchMantissaFrom (c :: rest)
  | [] => false

/-- Python re end-anchor adjustment: a dollar anchor also matches just
before a single newline that ends the string, so one trailing newline is
ignored. -/
def stripTrailingNewline (cs : List Char) : List Char :=
  if cs.getLast? == some '\n' then cs.dropLast else cs

/-- Test used by Series.str.match on lines 41 and 43: the anchored
numeric-literal regular expression applied to a textual value with
Python dollar-anchor semantics. -/
def pyMatchNumeric (s : String) : Bool :=
  matchesNumericRegex (stripTrailingNewline s.data)

/-- Occurrence counting step: bump the tally of one value in an
association list kept in first-occurrence order. -/
def bumpCount : List (String × Nat) → String → List (String × Nat)
  | [], v => [(v, 1)]
  | (k, n) :: rest, v => if k == v then (k, n + 1) :: rest else (k, n) :: bumpCount rest v

/-- Tallies of a list of textual values, keyed by distinct value in
first-occurrence order. -/
def tallies (vs : List String) : List (String × Nat) :=
  vs.foldl bumpCount []

/-- Insertion of one tally into a list kept in descending order of
count, placed after existing entries of equal count. -/
def insertByCount (p : String × Nat) : List (String × Nat) → List (String × Nat)
  | [] => [p]
  | q :: rest => if q.2 < p.2 then p :: q :: rest else q :: insertByCount p rest

/-- Stable sort of tallies into descending order of count. -/
def sortByCountDesc (l : List (String × Nat)) : List (String × Nat) :=
  l.foldl (fun acc p => insertByCount p acc) []

/-- Model of Series.value_counts on line 39: occurrence counts of the
distinct textual values, ordered by descending count (order among equal
counts is not guaranteed by the library; this model keeps
first-occurrence order). -/
def valueCounts (vs : List String) : List (String × Nat) :=
  sortByCountDesc (tallies vs)

/-- Summary of one column as built on lines 47 to 50: the numeric-looking
value counts truncated to the first five, and all non-numeric value
counts. -/
structure ColSummary where
  numeric_examples : List (String × Nat)
  non_numeric_values : List (String × Nat)
deriving DecidableEq

/-- Per-column summarization of lines 36 to 50: coerce cells to text,
count values, and when some distinct value fails the numeric-literal
pattern, split the counts into the numeric bucket (truncated to the top
five by count) and the non-numeric bucket; otherwise the column is
skipped. -/
def summarizeColumn (cells : List Cell) : Option ColSummary :=
  let counts := valueCounts (cells.map cellToString)
  if counts.any (fun p => !(pyMatchNumeric p.1)) then
    some { numeric_examples := (counts.filter (fun p => pyMatchNumeric p.1)).take 5,
           non_numeric_values := counts.filter (fun p => !(pyMatchNumeric p.1)) }
  else none

/-- Tabular dataset: named columns in order, each an ordered list of
cells. -/
structure DataFrame where
  cols : List (String × List Cell)
deriving DecidableEq

/-- Column-name membership test, df.columns membership on line 26. -/
def hasColumn (df : DataFrame) (name : String) : Bool :=
  df.cols.any (fun p => p.1 == name)

/-- Access to a column by name, as in df[col]. -/
def getColumn (df : DataFrame) (name : String) : Option (List Cell) :=
  (df.cols.find? (fun p => p.1 == name)).map Prod.snd

/-- Python repr of a simple string: the text between single quotes. -/
def pyStrRepr (s : String) : String :=
  "\x27" ++ s ++ "\x27"

/-- Message of the error raised on line 28, with the invalid column
names rendered as a Python list. -/
def columnsNotFoundMsg (invalid : List String) : String :=
  "Columns not found in DataFrame: [" ++ String.intercalate (", ") (invalid.map pyStrRepr) ++ "]"

/-- Column-validation and summarization phase of
identify_placeholder_strings, lines 25 to 50: fail when some requested
column is absent, listing the offenders; otherwise map each requested
column to its summary, keeping only columns whose values are not all
numeric-looking. -/
def summarize_columns (df : DataFrame) (columns_to_check : List String) :
    Except String (List (String × ColSummary)) :=
  let invalid_cols := columns_to_check.filter (fun col => !(hasColumn df col))
  if invalid_cols.isEmpty then
    Except.ok (columns_to_check.filterMap (fun col =>
      ((getColumn df col).bind summarizeColumn).map (fun s => (col, s))))
  else Except.error (columnsNotFoundMsg invalid_cols)

/-- Fixed instruction block of lines 52 to 79, verbatim. -/
def promptText : String :=
  "\n" ++
  "    ## Task:\n" ++
  "    Analyze these columns and their unique value counts. Each column has:\n" ++
  "    - \x27numeric_examples\x27: A sample of the normal numeric values in the column (may be empty for only categorical columns)\n" ++
  "    - \x27non_numeric_values\x27: All non-numeric values found in the column\n" ++
  "    \n" ++
  "    Identify ONLY placeholder strings that represent missing data or invalid measurements.\n" ++
  "\n" ++
  "    ## Rules for Identification:\n" ++
  "    Examples of what to include:\n" ++
  "    - Missing data indicators (e.g., \x27N/A\x27, \x27missing\x27, \x27nan\x27,\x27M_OTHER\x27)\n" ++
  "    - Invalid measurement markers (e.g., \x27BLOD\x27, \x27-\x27)\n" ++
  "    - Unknown/undefined values (e.g., \x27Unknown\x27, \x27not_answered\x27)\n" ++
  "\n" ++
  "    Examples of what to exclude:\n" ++
  "    - Valid categorical values (e.g., \x27Male\x27/\x27Female\x27)\n" ++
  "    - Normal numeric values\n" ++
  "    \n" ++
  "    ## Special Considerations\n" ++
  "    1. Numeric columns: If a column has numeric values, then most non-numeric values in the columnare likely placeholders\n" ++
  "    2. Categorical columns: Consider all categorical values and decide if they are valid or placeholders for the column values\n" ++
  "       - Focus on common missing data patterns\n" ++
  "       - Consider the column name and context\n" ++
  "    \n" ++
  "    ## Output Format\n" ++
  "    Return a Python list of strings containing only the identified placeholder values.\n" ++
  "    Include case variations if present.\n" ++
  "    "

/-- Python str of a count dictionary, keys in single quotes. -/
def countsDictStr (m : List (String × Nat)) : String :=
  "\x7b" ++ String.intercalate (", ") (m.map (fun p => pyStrRepr p.1 ++ ": " ++ toString p.2)) ++ "\x7d"

/-- Python str of one column summary dictionary, as embedded in the
prompt on line 82. -/
def colSummaryStr (s : ColSummary) : String :=
  "\x7b" ++ pyStrRepr ("numeric_examples") ++ ": " ++ countsDictStr s.numeric_examples ++
  ", " ++ pyStrRepr ("non_numeric_values") ++ ": " ++ countsDictStr s.non_numeric_values ++ "\x7d"

/-- Python str of the whole value-counts dictionary. -/
def valueCountsStr (m : List (String × ColSummary)) : String :=
  "\x7b" ++ String.intercalate (", ") (m.map (fun p => pyStrRepr p.1 ++ ": " ++ colSummaryStr p.2)) ++ "\x7d"

/-- Complete prompt text sent to the model on line 82: the fixed
instruction block followed by the serialized value counts. -/
def fullPrompt (m : List (String × ColSummary)) : String :=
  promptText ++ "\n\nColumn value counts:\n" ++ valueCountsStr m

/-- Value produced by evaluating the model response on line 84:
an integer, a string, or a list of values. -/
inductive PyValue where
  | int (n : Int) : PyValue
  | str (s : String) : PyValue
  | list (xs : List PyValue) : PyValue

mutual

/-- Boolean equality on Python values. -/
def beqPyValue : PyValue → PyValue → Bool
  | PyValue.int a, PyValue.int b => a == b
  | PyValue.str a, PyValue.str b => a == b
  | PyValue.list xs, PyValue.list ys => beqPyValueList xs ys
  | _, _ => false

/-- Boolean equality on lists of Python values. -/
def beqPyValueList : List PyValue → List PyValue → Bool
  | [], [] => true
  | x :: xs, y :: ys => beqPyValue x y && beqPyValueList xs ys
  | _, _ => false

end

mutual

def beqPyValue_iff : ∀ a b : PyValue, beqPyValue a b = true ↔ a = b
  | PyValue.int a, PyValue.int b => by simp [beqPyValue]
  | PyValue.int _, PyValue.str _ => by simp [beqPyValue]
  | PyValue.int _, PyValue.list _ => by simp [beqPyValue]
  | PyValue.str _, PyValue.int _ => by simp [beqPyValue]
  | PyValue.str a, PyValue.str b => by simp [beqPyValue]
  | PyValue.str _, PyValue.list _ => by simp [beqPyValue]
  | PyValue.list _, PyValue.int _ => by simp [beqPyValue]
  | PyValue.list _, PyValue.str _ => by simp [beqPyValue]
  | PyValue.list xs, PyValue.list ys => by
    simp only [beqPyValue, beqPyValueList_iff xs ys, PyValue.list.injEq]

def beqPyValueList_iff : ∀ xs ys : List PyValue, beqPyValueList xs ys = true ↔ xs = ys
  | [], [] => by simp [beqPyValueList]
  | [], _ :: _ => by simp [beqPyValueList]
  | _ :: _, [] => by simp [beqPyValueList]
  | x :: xs, y :: ys => by
    simp only [beqPyValueList, Bool.and_eq_true, beqPyValue_iff x y,
      beqPyValueList_iff xs ys, List.cons.injEq]

end

instance : DecidableEq PyValue :=
  fun a b => decidable_of_iff (beqPyValue a b = true) (beqPyValue_iff a b)

instance {ε α : Type} [DecidableEq ε] [DecidableEq α] : DecidableEq (Except ε α) :=
  fun a b =>
    match a, b with
    | Except.ok x, Except.ok y => decidable_of_iff (x = y) (by simp)
    | Except.error x, Except.error y => decidable_of_iff (x = y) (by simp)
    | Except.ok _, Except.error _ => isFalse (by simp)
    | Except.error _, Except.ok _ => isFalse (by simp)

/-- Whitespace skipping for the literal evaluator. -/
def skipWs : List Char → List Char
  | [] => []
  | c :: rest => if c == ' ' || c == '\n' || c == '\t' || c == '\r' then skipWs rest else c :: rest

/-- Scan of a quoted string body up to the closing quote.  Escape
sequences are outside the modelled fragment and are rejected. -/
def takeUntilQuote (q : Char) : List Char → Option (List Char × List Char)
  | [] => none
  | c :: rest =>
    if c == q then some ([], rest)
    else if c == '\\' then none
    else (takeUntilQuote q rest).map (fun pr => (c :: pr.1, pr.2))

/-- Decimal digits to a natural number. -/
def digitsToNat (ds : List Char) : Nat :=
  ds.foldl (fun acc c => acc * 10 + (c.toNat - 48)) 0

/-- Scan of a nonempty digit run into a natural number. -/
def parseNatLit (cs : List Char) : Option (Nat × List Char) :=
  let pr := cs.span Char.isDigit
  if pr.1.isEmpty then none else some (digitsToNat pr.1, pr.2)

/-- Scan of an integer with an optional sign. -/
def parseIntLit : List Char → Option (Int × List Char)
  | '-' :: rest => (parseNatLit rest).map (fun pr => (-(pr.1 : Int), pr.2))
  | '+' :: rest => (parseNatLit rest).map (fun pr => ((pr.1 : Int), pr.2))
  | cs => (parseNatLit cs).map (fun pr => ((pr.1 : Int), pr.2))

mutual

/-- Scan of one Python literal value (string, integer, or list),
fuel-bounded.  This models the fragment of the Python evaluator the
program relies on: string, integer and list literals. -/
def parsePyValue : Nat → List Char → Option (PyValue × List Char)
  | 0, _ => none
  | fuel + 1, cs =>
    match skipWs cs with
    | '\x27' :: rest => (takeUntilQuote '\x27' rest).map (fun pr => (PyValue.str (String.mk pr.1), pr.2))
    | '"' :: rest => (takeUntilQuote '"' rest).map (fun pr => (PyValue.str (String.mk pr.1), pr.2))
    | '[' :: rest => parsePyList fuel rest
    | other => (parseIntLit other).map (fun pr => (PyValue.int pr.1, pr.2))

/-- Scan of a list literal body right after the opening bracket. -/
def parsePyList : Nat → List Char → Option (PyValue × List Char)
  | 0, _ => none
  | fuel + 1, cs =>
    match skipWs cs with
    | ']' :: rest => some (PyValue.list [], rest)
    | other =>
      (parsePyValue fuel other).bind (fun pr =>
        (parsePyListRest fuel pr.2).map (fun qr => (PyValue.list (pr.1 :: qr.1), qr.2)))

/-- Scan of the remaining items of a list literal, each preceded by a
comma; a trailing comma before the closing bracket is allowed. -/
def parsePyListRest : Nat → List Char → Option (List PyValue × List Char)
  | 0, _ => none
  | fuel + 1, cs =>
    match skipWs cs with
    | ']' :: rest => some ([], rest)
    | ',' :: rest =>
      (match skipWs rest with
       | ']' :: rest2 => some ([], rest2)
       | other =>
         (parsePyValue fuel other).bind (fun pr =>
           (parsePyListRest fuel pr.2).map (fun qr => (pr.1 :: qr.1, qr.2))))
    | _ => none

end

/-- Model of the Python evaluator applied to the raw model response on
line 84, restricted to literal expressions: the text must be one
string, integer or list literal surrounded by whitespace; anything else
raises a syntax error.  Expressions outside the literal fragment are
not modelled. -/
def pythonEval (text : String) : Except String PyValue :=
  match parsePyValue (text.length + 1) text.data with
  | some (v, rest) =>
    if (skipWs rest).isEmpty then Except.ok v
    else Except.error ("SyntaxError: invalid syntax")
  | none => Except.error ("SyntaxError: invalid syntax")

/-- Function identify_placeholder_strings of lines 16 to 84, with the
text-generation service abstracted as a function from prompt text to
response text: validate and summarize the requested columns, send the
prompt, and evaluate the raw response as a Python literal. -/
def identify_placeholder_strings (model : String → String) (df : DataFrame)
    (columns_to_check : List String) : Except String PyValue :=
  match summarize_columns df columns_to_check with
  | Except.error e => Except.error e
  | Except.ok value_counts => pythonEval (model (fullPrompt value_counts))

/-- Replacement of one placeholder in one cell, as Series.replace on
line 100: a cell equal to the placeholder string becomes the missing
marker, every other cell is unchanged. -/
def replaceCell (placeholder : String) (c : Cell) : Cell :=
  if c == Cell.str placeholder then Cell.na else c

/-- Inner loop of lines 99 and 100: replace each placeholder in turn
across the cells of one column. -/
def cleanColumn (placeholder_list : List String) (cells : List Cell) : List Cell :=
  placeholder_list.foldl (fun cur p => cur.map (replaceCell p)) cells

/-- One column-assignment step of lines 98 to 100: every column with the
given name has its cells cleaned in place. -/
def cleanStep (placeholder_list : List String) (cur : List (String × List Cell)) (col : String) :
    List (String × List Cell) :=
  cur.map (fun p => if p.1 == col then (p.1, cleanColumn placeholder_list p.2) else p)

/-- Message of the key error raised by the column access on line 100
when a requested column does not exist. -/
def keyErrorMsg (col : String) : String :=
  "KeyError: " ++ pyStrRepr col

/-- Outer loop of lines 98 to 100 over the requested columns.  The
column access of line 100 happens inside the loop over placeholders,
so with an empty placeholder list a requested column is never
accessed; with a nonempty list a column absent from the frame raises a
key error at its first access, and a present column is rewritten by
every replacement in turn. -/
def cleanLoop (placeholder_list : List String) :
    List (String × List Cell) → List String → Except String (List (String × List Cell))
  | cur, [] => Except.ok cur
  | cur, col :: rest =>
    if placeholder_list.isEmpty then cleanLoop placeholder_list cur rest
    else if cur.any (fun p => p.1 == col) then
      cleanLoop placeholder_list (cleanStep placeholder_list cur col) rest
    else Except.error (keyErrorMsg col)

/-- Function clean_dataframe of lines 86 to 102: work on a copy of the
frame and replace each placeholder with the missing marker in each
requested column. -/
def clean_dataframe (df : DataFrame) (placeholder_list : List String)
    (columns_to_clean : List String) : Except String DataFrame :=
  (cleanLoop placeholder_list df.cols columns_to_clean).map DataFrame.mk

/-- Object-dtype test for one cell: textual cells force a column to the
object dtype; integer cells and missing markers leave it numeric. -/
def isObjectDtypeCell : Cell → Bool
  | Cell.str _ => true
  | Cell.int _ => false
  | Cell.na => false

/-- Dtype inference for a column of numbers, text and missing markers:
the column has the object dtype exactly when some cell is textual,
and a numeric dtype otherwise. -/
def columnIsObjectDtype (cells : List Cell) : Bool :=
  cells.any isObjectDtypeCell

/-- Default column selection of line 125,
df.select_dtypes(include=[object]).columns.tolist(): the names of the
columns having the object dtype, in order. -/
def selectObjectColumns (df : DataFrame) : List String :=
  (df.cols.filter (fun p => columnIsObjectDtype p.2)).map Prod.fst

/-- Strictly-numeric-type test for one cell, following the wording of
the specification: integers and missing markers are of numeric type,
text is not. -/
def isStrictlyNumericTypeCell : Cell → Bool
  | Cell.int _ => true
  | Cell.na => true
  | Cell.str _ => false

/-- Column-level strictly-numeric-type test, following the wording of
the specification: every value is already of a strictly numeric type. -/
def columnIsStrictlyNumeric (cells : List Cell) : Bool :=
  cells.all isStrictlyNumericTypeCell

/-- Test that a Python value is a list of strings. -/
def isStringListValue : PyValue → Bool
  | PyValue.list xs => xs.all (fun v => match v with | PyValue.str _ => true | _ => false)
  | _ => false

/-- Test, following the wording of the specification, that a response
text is a syntactically valid list-of-strings literal: the evaluator
accepts it and the resulting value is a list of strings. -/
def isValidStringListLiteral (s : String) : Bool :=
  match pythonEval s with
  | Except.ok v => isStringListValue v
  | Except.error _ => false

/-- Dataset with the single column Age of the end-to-end scenario. -/
def dfAge : DataFrame :=
  ⟨[("Age", [Cell.str ("45"), Cell.str ("N/A"), Cell.str ("52"), Cell.str ("-"), Cell.str ("60")])]⟩

/-- Dataset with the single column Sex of the other end-to-end
scenario. -/
def dfSex : DataFrame :=
  ⟨[("Sex", [Cell.str ("Male"), Cell.str ("Female"), Cell.str ("Unknown"), Cell.str ("Male")])]⟩

/-- Numeric bucket of the value counts of a column, before truncation:
the counts of the distinct textual values matching the numeric-literal
pattern, in descending order of count. -/
def numericValueCounts (cells : List Cell) : List (String × Nat) :=
  (valueCounts (cells.map cellToString)).filter (fun p => pyMatchNumeric p.1)

/-- Dataset used as a witness for the omission of a fully numeric
column: one numeric-looking column and one categorical column. -/
def dfNum : DataFrame :=
  ⟨[("Num", [Cell.str ("1"), Cell.str ("2")]),
    ("Sex", [Cell.str ("Male"), Cell.str ("N/A")])]⟩

/-- Dataset used as a witness for the truncation of the numeric bucket:
seven distinct numeric-looking values and one placeholder. -/
def dfMoca : DataFrame :=
  ⟨[("MOCA", [Cell.str ("1"), Cell.str ("2"), Cell.str ("3"), Cell.str ("4"),
    Cell.str ("5"), Cell.str ("6"), Cell.str ("7"), Cell.str ("N/A")])]⟩

/-- Cell-level view of the placeholder replacement loop: apply every
replacement of the placeholder list in turn to one cell. -/
def cleanCell (placeholder_list : List String) (c : Cell) : Cell :=
  placeholder_list.foldl (fun cur p => replaceCell p cur) c

/-- Test that a cell is a textual value appearing in the placeholder
list. -/
def cellIsPlaceholder (placeholder_list : List String) : Cell → Bool
  | Cell.str s => placeholder_list.contains s
  | Cell.int _ => false
  | Cell.na => false

/-- Relation between an input column entry and the corresponding output
entry of the cleaning loop: the name is unchanged, entries outside the
target list are untouched, and entries inside it are fixed points of
the column cleaning. -/
def CleanRel (ps cols : List String) (a b : String × List Cell) : Prop :=
  a.1 = b.1 ∧ (a.1 ∉ cols → b = a) ∧ (a.1 ∈ cols → cleanColumn ps b.2 = b.2)

theorem mem_insertByCount (p a : String × Nat) (l : List (String × Nat))
    (h : a ∈ insertByCount p l) : a = p ∨ a ∈ l := by
  induction l with
  | nil => simpa [insertByCount] using h
  | cons q rest ih =>
    unfold insertByCount at h
    split at h
    · rcases List.mem_cons.mp h with h1 | h2
      · exact Or.inl h1
      · exact Or.inr h2
    · rcases List.mem_cons.mp h with h1 | h2
      · exact Or.inr (h1 ▸ List.mem_cons_self q rest)
      · rcases ih h2 with h3 | h4
        · exact Or.inl h3
        · exact Or.inr (List.mem_cons_of_mem q h4)

theorem pairwise_insertByCount (p : String × Nat) (l : List (String × Nat))
    (h : l.Pairwise (fun x y => y.2 ≤ x.2)) :
    (insertByCount p l).Pairwise (fun x y => y.2 ≤ x.2) := by
  induction l with
  | nil => simp [insertByCount]
  | cons q rest ih =>
    rw [List.pairwise_cons] at h
    unfold insertByCount
    split
    · rename_i hc
      refine List.pairwise_cons.mpr ⟨?_, List.pairwise_cons.mpr h⟩
      intro b hb
      rcases List.mem_cons.mp hb with rfl | hbr
      · exact Nat.le_of_lt hc
      · exact Nat.le_trans (h.1 b hbr) (Nat.le_of_lt hc)
    · rename_i hc
      refine List.pairwise_cons.mpr ⟨?_, ih h.2⟩
      intro b hb
      rcases mem_insertByCount p b rest hb with rfl | hbr
      · exact Nat.le_of_not_lt hc
      · exact h.1 b hbr

theorem pairwise_foldl_insert :
    ∀ (l acc : List (String × Nat)), acc.Pairwise (fun x y => y.2 ≤ x.2) →
      (l.foldl (fun acc p => insertByCount p acc) acc).Pairwise (fun x y => y.2 ≤ x.2) := by
  intro l
  induction l with
  | nil => intro acc hacc; simpa using hacc
  | cons p rest ih => intro acc hacc; exact ih _ (pairwise_insertByCount p acc hacc)

theorem pairwise_sortByCountDesc (l : List (String × Nat)) :
    (sortByCountDesc l).Pairwise (fun x y => y.2 ≤ x.2) :=
  pairwise_foldl_insert l [] (by simp)

theorem mem_foldl_insert :
    ∀ (l acc : List (String × Nat)) (a : String × Nat),
      a ∈ l.foldl (fun acc p => insertByCount p acc) acc → a ∈ acc ∨ a ∈ l := by
  intro l
  induction l with
  | nil => intro acc a h; exact Or.inl (by simpa using h)
  | cons p rest ih =>
    intro acc a h
    rcases ih (insertByCount p acc) a h with h1 | h2
    · rcases mem_insertByCount p a acc h1 with rfl | h3
      · exact Or.inr (List.mem_cons_self a rest)
      · exact Or.inl h3
    · exact Or.inr (List.mem_cons_of_mem p h2)

theorem mem_sortByCountDesc (l : List (String × Nat)) (a : String × Nat)
    (h : a ∈ sortByCountDesc l) : a ∈ l :=
  (mem_foldl_insert l [] a h).resolve_left (by simp)

theorem mem_bumpCount :
    ∀ (acc : List (String × Nat)) (v : String) (a : String × Nat),
      a ∈ bumpCount acc v → a.1 = v ∨ ∃ n, (a.1, n) ∈ acc := by
  intro acc
  induction acc with
  | nil =>
    intro v a h
    simp only [bumpCount, List.mem_singleton] at h
    exact Or.inl (by rw [h])
  | cons q rest ih =>
    intro v a h
    obtain ⟨k, n⟩ := q
    unfold bumpCount at h
    split at h
    · rename_i hk
      rcases List.mem_cons.mp h with rfl | h2
      · exact Or.inl (by simpa using hk)
      · exact Or.inr ⟨a.2, List.mem_cons_of_mem _ (by simpa using h2)⟩
    · rcases List.mem_cons.mp h with rfl | h2
      · exact Or.inr ⟨n, List.mem_cons_self _ _⟩
      · rcases ih v a h2 with h3 | ⟨m, h4⟩
        · exact Or.inl h3
        · exact Or.inr ⟨m, List.mem_cons_of_mem _ h4⟩

theorem key_mem_foldl_bump :
    ∀ (vs : List String) (acc : List (String × Nat)) (p : String × Nat),
      p ∈ vs.foldl bumpCount acc → p.1 ∈ vs ∨ ∃ n, (p.1, n) ∈ acc := by
  intro vs
  induction vs with
  | nil => intro acc p h; exact Or.inr ⟨p.2, by simpa using h⟩
  | cons v rest ih =>
    intro acc p h
    rcases ih (bumpCount acc v) p h with h1 | ⟨n, h2⟩
    · exact Or.inl (List.mem_cons_of_mem v h1)
    · rcases mem_bumpCount acc v (p.1, n) h2 with h3 | ⟨m, h4⟩
      · exact Or.inl (h3 ▸ List.mem_cons_self _ _)
      · exact Or.inr ⟨m, h4⟩

theorem key_mem_valueCounts (vs : List String) (p : String × Nat)
    (h : p ∈ valueCounts vs) : p.1 ∈ vs := by
  have h1 := mem_sortByCountDesc _ _ h
  rcases key_mem_foldl_bump vs [] p h1 with h2 | ⟨n, h3⟩
  · exact h2
  · exact absurd h3 (List.not_mem_nil _)

theorem summarizeColumn_eq_some {cells : List Cell} {s : ColSummary}
    (h : summarizeColumn cells = some s) :
    (valueCounts (cells.map cellToString)).any (fun p => !(pyMatchNumeric p.1)) = true ∧
    s = ⟨((valueCounts (cells.map cellToString)).filter (fun p => pyMatchNumeric p.1)).take 5,
         (valueCounts (cells.map cellToString)).filter (fun p => !(pyMatchNumeric p.1))⟩ := by
  simp only [summarizeColumn] at h
  split at h
  · exact ⟨by assumption, (Option.some.inj h).symm⟩
  · exact absurd h (by simp)

theorem mem_summarize_columns {df : DataFrame} {cols : List String}
    {m : List (String × ColSummary)} {c : String} {s : ColSummary}
    (h : summarize_columns df cols = Except.ok m) (hm : (c, s) ∈ m) :
    ∃ cells, getColumn df c = some cells ∧ summarizeColumn cells = some s := by
  simp only [summarize_columns] at h
  split at h
  · have hm2 : (c, s) ∈ cols.filterMap (fun col =>
        ((getColumn df col).bind summarizeColumn).map (fun t => (col, t))) := by
      cases h; exact hm
    rcases List.mem_filterMap.mp hm2 with ⟨col, _, hf⟩
    rcases Option.map_eq_some'.mp hf with ⟨t, hb, hpair⟩
    have hc : col = c := congrArg Prod.fst hpair
    have ht : t = s := congrArg Prod.snd hpair
    subst hc; subst ht
    rcases Option.bind_eq_some.mp hb with ⟨cells, hg, hs⟩
    exact ⟨cells, hg, hs⟩
  · cases h

/-- Claim C2: a column whose distinct textual values all match the
numeric-literal pattern is omitted entirely from the summarizer output
mapping. -/
theorem numeric_only_column_omitted (df : DataFrame) (cols : List String)
    (m : List (String × ColSummary)) (c : String) (cells : List Cell)
    (h1 : summarize_columns df cols = Except.ok m)
    (h2 : getColumn df c = some cells)
    (h3 : ∀ v ∈ cells.map cellToString, pyMatchNumeric v = true) :
    c ∉ m.map Prod.fst := by
  intro hc
  rcases List.mem_map.mp hc with ⟨⟨c2, s⟩, hmem, hfst⟩
  cases hfst
  rcases mem_summarize_columns h1 hmem with ⟨cells2, hg, hs⟩
  rw [h2] at hg
  cases hg
  have hsum := summarizeColumn_eq_some hs
  rcases List.any_eq_true.mp hsum.1 with ⟨p, hp, hnp⟩
  have hkey := key_mem_valueCounts _ p hp
  rw [h3 p.1 hkey] at hnp
  exact absurd hnp (by simp)

theorem numeric_only_column_omitted_witness :
    (getColumn dfNum ("Num") = some [Cell.str ("1"), Cell.str ("2")]) ∧
    ("Num") ∉ ([("Sex", (⟨[], [("Male", 1), ("N/A", 1)]⟩ : ColSummary))].map Prod.fst) :=
  ⟨by decide,
   numeric_only_column_omitted dfNum [("Num"), ("Sex")]
     [("Sex", ⟨[], [("Male", 1), ("N/A", 1)]⟩)] ("Num")
     [Cell.str ("1"), Cell.str ("2")] (by decide) (by decide) (by decide)⟩

/-- Claim C3: for every column kept by the summarizer, the numeric
bucket has at most five entries, each entry is one of the column
numeric-looking value counts, and every numeric-looking value count not
kept has a count no larger than every kept one. -/
theorem numeric_examples_top5 (df : DataFrame) (cols : List String)
    (m : List (String × ColSummary)) (c : String) (s : ColSummary) (cells : List Cell)
    (h1 : summarize_columns df cols = Except.ok m)
    (h2 : (c, s) ∈ m)
    (h3 : getColumn df c = some cells) :
    s.numeric_examples.length ≤ 5 ∧
    (∀ p ∈ s.numeric_examples, p ∈ numericValueCounts cells) ∧
    (∀ q ∈ numericValueCounts cells,
      q ∈ s.numeric_examples ∨ ∀ p ∈ s.numeric_examples, q.2 ≤ p.2) := by
  rcases mem_summarize_columns h1 h2 with ⟨cells2, hg, hs⟩
  rw [h3] at hg
  cases hg
  rcases summarizeColumn_eq_some hs with ⟨_, rfl⟩
  refine ⟨?_, ?_, ?_⟩
  · rw [List.length_take]
    exact Nat.min_le_left _ _
  · intro p hp
    exact List.take_subset _ _ hp
  · intro q hq
    have hpw : (numericValueCounts cells).Pairwise (fun x y => y.2 ≤ x.2) :=
      (pairwise_sortByCountDesc _).filter _
    rw [← List.take_append_drop 5 (numericValueCounts cells)] at hpw hq
    rcases List.mem_append.mp hq with hq1 | hq2
    · exact Or.inl hq1
    · have hsplit := List.pairwise_append.mp hpw
      exact Or.inr (fun p hp => hsplit.2.2 p hp q hq2)

theorem numeric_examples_top5_witness :
    (getColumn dfMoca ("MOCA") =
      some [Cell.str ("1"), Cell.str ("2"), Cell.str ("3"), Cell.str ("4"),
        Cell.str ("5"), Cell.str ("6"), Cell.str ("7"), Cell.str ("N/A")]) ∧
    ((⟨[("1", 1), ("2", 1), ("3", 1), ("4", 1), ("5", 1)],
       [("N/A", 1)]⟩ : ColSummary).numeric_examples.length ≤ 5 ∧
     (∀ p ∈ (⟨[("1", 1), ("2", 1), ("3", 1), ("4", 1), ("5", 1)],
       [("N/A", 1)]⟩ : ColSummary).numeric_examples,
        p ∈ numericValueCounts [Cell.str ("1"), Cell.str ("2"), Cell.str ("3"), Cell.str ("4"),
          Cell.str ("5"), Cell.str ("6"), Cell.str ("7"), Cell.str ("N/A")]) ∧
     (∀ q ∈ numericValueCounts [Cell.str ("1"), Cell.str ("2"), Cell.str ("3"), Cell.str ("4"),
          Cell.str ("5"), Cell.str ("6"), Cell.str ("7"), Cell.str ("N/A")],
        q ∈ (⟨[("1", 1), ("2", 1), ("3", 1), ("4", 1), ("5", 1)],
          [("N/A", 1)]⟩ : ColSummary).numeric_examples ∨
        ∀ p ∈ (⟨[("1", 1), ("2", 1), ("3", 1), ("4", 1), ("5", 1)],
          [("N/A", 1)]⟩ : ColSummary).numeric_examples, q.2 ≤ p.2)) :=
  ⟨by decide,
   numeric_examples_top5 dfMoca [("MOCA")]
     [("MOCA", ⟨[("1", 1), ("2", 1), ("3", 1), ("4", 1), ("5", 1)], [("N/A", 1)]⟩)]
     ("MOCA")
     ⟨[("1", 1), ("2", 1), ("3", 1), ("4", 1), ("5", 1)], [("N/A", 1)]⟩
     [Cell.str ("1"), Cell.str ("2"), Cell.str ("3"), Cell.str ("4"),
      Cell.str ("5"), Cell.str ("6"), Cell.str ("7"), Cell.str ("N/A")]
     (by decide) (by decide) (by decide)⟩

/-- Claim C9: in every produced column summary the numeric and
non-numeric buckets have disjoint key sets, and the non-numeric bucket
is non-empty. -/
theorem summary_buckets_disjoint_nonempty (df : DataFrame) (cols : List String)
    (m : List (String × ColSummary)) (c : String) (s : ColSummary)
    (h1 : summarize_columns df cols = Except.ok m)
    (h2 : (c, s) ∈ m) :
    (∀ k ∈ s.numeric_examples.map Prod.fst, k ∉ s.non_numeric_values.map Prod.fst) ∧
    s.non_numeric_values ≠ [] := by
  rcases mem_summarize_columns h1 h2 with ⟨cells, _, hs⟩
  rcases summarizeColumn_eq_some hs with ⟨hany, rfl⟩
  constructor
  · intro k hk hk2
    rcases List.mem_map.mp hk with ⟨p, hp, rfl⟩
    rcases List.mem_map.mp hk2 with ⟨q, hq, hpq⟩
    have hpnum : pyMatchNumeric p.1 = true :=
      (List.mem_filter.mp (List.take_subset _ _ hp)).2
    have hqnon := (List.mem_filter.mp hq).2
    rw [hpq, hpnum] at hqnon
    exact absurd hqnon (by simp)
  · rcases List.any_eq_true.mp hany with ⟨p, hp, hnp⟩
    exact List.ne_nil_of_mem (List.mem_filter.mpr ⟨hp, hnp⟩)

theorem summary_buckets_disjoint_nonempty_witness :
    (summarize_columns dfAge [("Age")] =
      Except.ok [("Age", ⟨[("45", 1), ("52", 1), ("60", 1)], [("N/A", 1), ("-", 1)]⟩)]) ∧
    ((∀ k ∈ ((⟨[("45", 1), ("52", 1), ("60", 1)],
        [("N/A", 1), ("-", 1)]⟩ : ColSummary)).numeric_examples.map Prod.fst,
        k ∉ ((⟨[("45", 1), ("52", 1), ("60", 1)],
          [("N/A", 1), ("-", 1)]⟩ : ColSummary)).non_numeric_values.map Prod.fst) ∧
     ((⟨[("45", 1), ("52", 1), ("60", 1)],
        [("N/A", 1), ("-", 1)]⟩ : ColSummary)).non_numeric_values ≠ []) :=
  ⟨by decide,
   summary_buckets_disjoint_nonempty dfAge [("Age")]
     [("Age", ⟨[("45", 1), ("52", 1), ("60", 1)], [("N/A", 1), ("-", 1)]⟩)]
     ("Age") ⟨[("45", 1), ("52", 1), ("60", 1)], [("N/A", 1), ("-", 1)]⟩
     (by decide) (by decide)⟩

/-- Claim C1: for the column Age with values 45, N/A, 52, -, 60, the
summarizer produces the stated numeric and non-numeric buckets, and
cleaning the column with the placeholder list containing N/A and the
dash yields the column with the two placeholders replaced by the
missing marker. -/
theorem age_end_to_end :
    summarize_columns dfAge [("Age")] =
      Except.ok [("Age", ⟨[("45", 1), ("52", 1), ("60", 1)], [("N/A", 1), ("-", 1)]⟩)] ∧
    clean_dataframe dfAge [("N/A"), ("-")] [("Age")] =
      Except.ok ⟨[("Age", [Cell.str ("45"), Cell.na, Cell.str ("52"), Cell.na,
        Cell.str ("60")])]⟩ := by
  decide

theorem cleanColumn_eq_map :
    ∀ (ps : List String) (cells : List Cell), cleanColumn ps cells = cells.map (cleanCell ps) := by
  intro ps
  induction ps with
  | nil =>
    intro cells
    show cells = cells.map (fun c => c)
    rw [List.map_id']
  | cons p rest ih =>
    intro cells
    show cleanColumn rest (cells.map (replaceCell p)) = cells.map (cleanCell (p :: rest))
    rw [ih, List.map_map]
    rfl

theorem cleanCell_eq (ps : List String) (c : Cell) :
    cleanCell ps c = if cellIsPlaceholder ps c then Cell.na else c := by
  induction ps generalizing c with
  | nil => cases c <;> simp [cleanCell, cellIsPlaceholder]
  | cons p rest ih =>
    have hstep : cleanCell (p :: rest) c = cleanCell rest (replaceCell p c) := rfl
    rw [hstep, ih]
    cases c with
    | na => simp [replaceCell, cellIsPlaceholder]
    | int n => simp [replaceCell, cellIsPlaceholder]
    | str s =>
      by_cases hs : s = p
      · subst hs
        simp [replaceCell, cellIsPlaceholder, List.contains_cons]
      · simp only [replaceCell, cellIsPlaceholder, List.contains_cons,
          beq_iff_eq, Cell.str.injEq, if_neg hs]
        have : (s == p) = false := by simp [hs]
        rw [this]
        simp [cellIsPlaceholder]

theorem cleanCell_idem (ps : List String) (c : Cell) :
    cleanCell ps (cleanCell ps c) = cleanCell ps c := by
  rw [cleanCell_eq ps c]
  by_cases h : cellIsPlaceholder ps c
  · rw [if_pos h, cleanCell_eq]
    simp [cellIsPlaceholder]
  · rw [if_neg h, cleanCell_eq, if_neg h]

theorem cleanColumn_idem (ps : List String) (cells : List Cell) :
    cleanColumn ps (cleanColumn ps cells) = cleanColumn ps cells := by
  rw [cleanColumn_eq_map, cleanColumn_eq_map, List.map_map]
  apply List.map_congr_left
  intro c _
  exact cleanCell_idem ps c

theorem cleanStep_map_fst (ps : List String) (cur : List (String × List Cell)) (col : String) :
    (cleanStep ps cur col).map Prod.fst = cur.map Prod.fst := by
  unfold cleanStep
  rw [List.map_map]
  apply List.map_congr_left
  intro p _
  by_cases h : p.1 = col <;> simp [h]

theorem any_name_of_map_fst_eq {l1 l2 : List (String × List Cell)}
    (h : l1.map Prod.fst = l2.map Prod.fst) (c : String) :
    l1.any (fun p => p.1 == c) = l2.any (fun p => p.1 == c) := by
  have haux : ∀ l : List (String × List Cell),
      l.any (fun p => p.1 == c) = (l.map Prod.fst).any (fun n => n == c) := by
    intro l
    induction l with
    | nil => rfl
    | cons q rest ih => simp [List.any_cons, ih]
  rw [haux, haux, h]

theorem cleanLoop_forall₂ (ps : List String) :
    ∀ (cols : List String) (cur res : List (String × List Cell)),
      cleanLoop ps cur cols = Except.ok res → List.Forall₂ (CleanRel ps cols) cur res := by
  intro cols
  induction cols with
  | nil =>
    intro cur res h
    cases h
    refine List.forall₂_same.mpr ?_
    intro a _
    exact ⟨rfl, fun _ => rfl, fun hmem => absurd hmem (List.not_mem_nil _)⟩
  | cons col rest ih =>
    intro cur res h
    unfold cleanLoop at h
    split at h
    · rename_i hE
      have hps : ps = [] := List.isEmpty_iff.mp hE
      have h2 := ih cur res h
      refine h2.imp ?_
      intro a b hab
      obtain ⟨h1, hnot, hin⟩ := hab
      refine ⟨h1, ?_, ?_⟩
      · intro hnotin
        exact hnot (fun hmem => hnotin (List.mem_cons_of_mem _ hmem))
      · intro _
        rw [hps]
        rfl
    · split at h
      · have h2 := ih (cleanStep ps cur col) res h
        unfold cleanStep at h2
        rw [List.forall₂_map_left_iff] at h2
        refine h2.imp ?_
        intro a b hab
        by_cases hc : a.1 == col
        · rw [if_pos hc] at hab
          obtain ⟨h1, hnot, hin⟩ := hab
          refine ⟨h1, ?_, ?_⟩
          · intro hnotin
            exact absurd (by rw [eq_of_beq hc]; exact List.mem_cons_self _ _) hnotin
          · intro _
            by_cases hr : a.1 ∈ rest
            · exact hin hr
            · rw [hnot hr]
              exact cleanColumn_idem ps a.2
        · rw [if_neg hc] at hab
          obtain ⟨h1, hnot, hin⟩ := hab
          refine ⟨h1, ?_, ?_⟩
          · intro hnotin
            exact hnot (fun hmem => hnotin (List.mem_cons_of_mem _ hmem))
          · intro hmem
            rcases List.mem_cons.mp hmem with heq | hmem2
            · exact absurd heq (by simpa using hc)
            · exact hin hmem2
      · cases h

theorem cleanLoop_present (ps : List String) (hE : ps.isEmpty = false) :
    ∀ (cols : List String) (cur res : List (String × List Cell)),
      cleanLoop ps cur cols = Except.ok res →
      ∀ col ∈ cols, cur.any (fun p => p.1 == col) = true := by
  intro cols
  induction cols with
  | nil => intro cur res _ col hc; exact absurd hc (List.not_mem_nil _)
  | cons c rest ih =>
    intro cur res h col hcol
    unfold cleanLoop at h
    split at h
    · rename_i hE2
      rw [hE2] at hE
      exact Bool.noConfusion hE
    · split at h
      · rename_i hpres
        rcases List.mem_cons.mp hcol with rfl | hcol2
        · exact hpres
        · have h2 := ih _ res h col hcol2
          rw [any_name_of_map_fst_eq (cleanStep_map_fst ps cur c) col] at h2
          exact h2
      · cases h

theorem cleanLoop_fixed (ps : List String) :
    ∀ (cols : List String) (cur : List (String × List Cell)),
      (ps.isEmpty = false → ∀ col ∈ cols, cur.any (fun p => p.1 == col) = true) →
      (∀ p ∈ cur, p.1 ∈ cols → cleanColumn ps p.2 = p.2) →
      cleanLoop ps cur cols = Except.ok cur := by
  intro cols
  induction cols with
  | nil => intro cur _ _; rfl
  | cons col rest ih =>
    intro cur hpres hfix
    cases hE : ps.isEmpty with
    | true =>
      simp only [cleanLoop]
      rw [if_pos hE]
      exact ih cur (fun hE2 c hc => hpres hE2 c (List.mem_cons_of_mem _ hc))
        (fun p hp hmem => hfix p hp (List.mem_cons_of_mem _ hmem))
    | false =>
      have hstep : cleanStep ps cur col = cur := by
        unfold cleanStep
        have hpt : ∀ p ∈ cur, (if p.1 == col then (p.1, cleanColumn ps p.2) else p) = p := by
          intro p hp
          by_cases hc : p.1 == col
          · rw [if_pos hc, hfix p hp (by rw [eq_of_beq hc]; exact List.mem_cons_self _ _)]
          · rw [if_neg hc]
        rw [List.map_congr_left hpt, List.map_id']
      simp only [cleanLoop]
      rw [if_neg (by simp [hE]), if_pos (hpres hE col (List.mem_cons_self _ _)), hstep]
      exact ih cur (fun hE2 c hc => hpres hE2 c (List.mem_cons_of_mem _ hc))
        (fun p hp hmem => hfix p hp (List.mem_cons_of_mem _ hmem))

theorem cleanLoop_isOk (ps : List String) :
    ∀ (cols : List String) (cur : List (String × List Cell)),
      (∀ col ∈ cols, cur.any (fun p => p.1 == col) = true) →
      ∃ res, cleanLoop ps cur cols = Except.ok res := by
  intro cols
  induction cols with
  | nil => intro cur _; exact ⟨cur, rfl⟩
  | cons col rest ih =>
    intro cur hpres
    cases hE : ps.isEmpty with
    | true =>
      rcases ih cur (fun c hc => hpres c (List.mem_cons_of_mem _ hc)) with ⟨res, hres⟩
      refine ⟨res, ?_⟩
      simp only [cleanLoop]
      rw [if_pos hE]
      exact hres
    | false =>
      rcases ih (cleanStep ps cur col) (fun c hc => by
        rw [any_name_of_map_fst_eq (cleanStep_map_fst ps cur col) c]
        exact hpres c (List.mem_cons_of_mem _ hc)) with ⟨res, hres⟩
      refine ⟨res, ?_⟩
      simp only [cleanLoop]
      rw [if_neg (by simp [hE]), if_pos (hpres col (List.mem_cons_self _ _))]
      exact hres

theorem forall₂_fst_map {R : (String × List Cell) → (String × List Cell) → Prop}
    (hR : ∀ a b, R a b → a.1 = b.1) :
    ∀ {l1 l2 : List (String × List Cell)}, List.Forall₂ R l1 l2 →
      l1.map Prod.fst = l2.map Prod.fst := by
  intro l1 l2 h
  induction h with
  | nil => rfl
  | cons hab _ ih => simp [List.map_cons, ih, hR _ _ hab]

theorem forall₂_mem_right {α β : Type} {R : α → β → Prop} :
    ∀ {l1 : List α} {l2 : List β}, List.Forall₂ R l1 l2 → ∀ b ∈ l2, ∃ a ∈ l1, R a b := by
  intro l1 l2 h
  induction h with
  | nil => intro b hb; exact absurd hb (List.not_mem_nil _)
  | cons hab _ ih =>
    intro b hb
    rcases List.mem_cons.mp hb with rfl | hb2
    · exact ⟨_, List.mem_cons_self _ _, hab⟩
    · rcases ih b hb2 with ⟨a, ha, har⟩
      exact ⟨a, List.mem_cons_of_mem _ ha, har⟩

/-- Claim C7: cleaning is idempotent; cleaning the result of a cleaning
run with the same placeholder list and column list gives that result
back, and a failing run composed with itself fails identically. -/
theorem clean_dataframe_idempotent (df : DataFrame) (ps cols : List String) :
    (clean_dataframe df ps cols).bind (fun d => clean_dataframe d ps cols) =
      clean_dataframe df ps cols := by
  unfold clean_dataframe
  cases h : cleanLoop ps df.cols cols with
  | error e => rfl
  | ok res =>
    have hff := cleanLoop_forall₂ ps cols df.cols res h
    have hfst : df.cols.map Prod.fst = res.map Prod.fst :=
      forall₂_fst_map (fun a b hab => hab.1) hff
    have hpres : ps.isEmpty = false → ∀ col ∈ cols, res.any (fun p => p.1 == col) = true := by
      intro hE col hc
      rw [← any_name_of_map_fst_eq hfst col]
      exact cleanLoop_present ps hE cols df.cols res h col hc
    have hfix : ∀ p ∈ res, p.1 ∈ cols → cleanColumn ps p.2 = p.2 := by
      intro p hp hmem
      rcases forall₂_mem_right hff p hp with ⟨a, _, har⟩
      exact har.2.2 (har.1 ▸ hmem)
    have h2 := cleanLoop_fixed ps cols res hpres hfix
    show (cleanLoop ps res cols).map DataFrame.mk = (Except.ok res).map DataFrame.mk
    rw [h2]

/-- Claim C6, amended: when every target column exists, cleaning
returns a new frame in which every column keeps its name and every
column outside the target list is unchanged (the input frame itself is
a pure value and is never modified). -/
theorem clean_dataframe_frame (df : DataFrame) (ps cols : List String)
    (h : ∀ col ∈ cols, hasColumn df col = true) :
    ∃ df', clean_dataframe df ps cols = Except.ok df' ∧
      List.Forall₂ (fun a b => a.1 = b.1 ∧ (a.1 ∉ cols → b = a)) df.cols df'.cols := by
  rcases cleanLoop_isOk ps cols df.cols (fun col hc => h col hc) with ⟨res, hres⟩
  refine ⟨⟨res⟩, ?_, ?_⟩
  · unfold clean_dataframe
    rw [hres]
    rfl
  · exact (cleanLoop_forall₂ ps cols df.cols res hres).imp
      (fun a b hab => ⟨hab.1, hab.2.1⟩)

/-- Claim C6, counterexample to the unrestricted statement: with a
nonempty placeholder list and a target column absent from the frame,
the first column access of line 100 raises a key error and the cleaner
returns no frame. -/
theorem clean_dataframe_missing_column_error :
    clean_dataframe (DataFrame.mk []) [("N/A")] [("Bogus")] =
      Except.error (keyErrorMsg ("Bogus")) := by
  decide

theorem clean_dataframe_frame_witness :
    (∀ col ∈ [("Age")], hasColumn dfAge col = true) ∧
    (∃ df', clean_dataframe dfAge [("N/A")] [("Age")] = Except.ok df' ∧
      List.Forall₂ (fun a b => a.1 = b.1 ∧ (a.1 ∉ [("Age")] → b = a)) dfAge.cols df'.cols) :=
  ⟨by decide, clean_dataframe_frame dfAge [("N/A")] [("Age")] (by decide)⟩

/-- Claim C10: cleaning with an empty placeholder list returns the
input frame whenever every target column exists. -/
theorem clean_empty_placeholder_identity (df : DataFrame) (cols : List String)
    (h : ∀ col ∈ cols, hasColumn df col = true) :
    clean_dataframe df [] cols = Except.ok df := by
  unfold clean_dataframe
  have h2 := cleanLoop_fixed [] cols df.cols (fun _ => h) (fun p _ _ => rfl)
  rw [h2]
  rfl

theorem clean_empty_placeholder_identity_witness :
    (∀ col ∈ [("Sex")], hasColumn dfSex col = true) ∧
    clean_dataframe dfSex [] [("Sex")] = Except.ok dfSex :=
  ⟨by decide, clean_empty_placeholder_identity dfSex [("Sex")] (by decide)⟩

theorem summarize_columns_invalid_error (df : DataFrame) (cols : List String)
    (h : cols.filter (fun col => !(hasColumn df col)) ≠ []) :
    summarize_columns df cols =
      Except.error (columnsNotFoundMsg (cols.filter (fun col => !(hasColumn df col)))) := by
  unfold summarize_columns
  have hE : (cols.filter (fun col => !(hasColumn df col))).isEmpty = false := by
    cases hE : (cols.filter (fun col => !(hasColumn df col))).isEmpty
    · rfl
    · exact absurd (List.isEmpty_iff.mp hE) h
  simp [hE]

/-- Claim C4: when some requested column is absent, placeholder
identification fails with the error listing the invalid names; the
result is the same for every model function, so no property of the
model service (and in particular no model call) can influence the
outcome, which happens before any network call. -/
theorem identify_fails_before_model (model : String → String) (df : DataFrame)
    (cols : List String)
    (h : cols.filter (fun col => !(hasColumn df col)) ≠ []) :
    identify_placeholder_strings model df cols =
      Except.error (columnsNotFoundMsg (cols.filter (fun col => !(hasColumn df col)))) := by
  unfold identify_placeholder_strings
  rw [summarize_columns_invalid_error df cols h]

theorem identify_fails_before_model_witness :
    ([("Bogus")].filter (fun col => !(hasColumn dfAge col)) ≠ []) ∧
    identify_placeholder_strings (fun _ => ("[]")) dfAge [("Bogus")] =
      Except.error (columnsNotFoundMsg ([("Bogus")].filter (fun col => !(hasColumn dfAge col)))) :=
  ⟨by decide, identify_fails_before_model (fun _ => ("[]")) dfAge [("Bogus")] (by decide)⟩

/-- Claim C5, amended: once the requested columns validate, the
placeholder resolver returns exactly what the evaluator produces on the
raw response text: an evaluator failure is surfaced unchanged, never
replaced by an empty list, and an evaluator success is returned as-is
even when the value is not a list of strings. -/
theorem identify_surfaces_eval_result (model : String → String) (df : DataFrame)
    (cols : List String) (vc : List (String × ColSummary))
    (h : summarize_columns df cols = Except.ok vc) :
    identify_placeholder_strings model df cols = pythonEval (model (fullPrompt vc)) := by
  unfold identify_placeholder_strings
  rw [h]

theorem identify_surfaces_eval_result_witness :
    (summarize_columns dfSex [("Sex")] =
      Except.ok [("Sex", ⟨[], [("Male", 2), ("Female", 1), ("Unknown", 1)]⟩)]) ∧
    identify_placeholder_strings (fun _ => ("Here is the list")) dfSex [("Sex")] =
      pythonEval ((fun _ : String => ("Here is the list"))
        (fullPrompt [("Sex", ⟨[], [("Male", 2), ("Female", 1), ("Unknown", 1)]⟩)])) :=
  ⟨by decide,
   identify_surfaces_eval_result (fun _ => ("Here is the list")) dfSex [("Sex")]
     [("Sex", ⟨[], [("Male", 2), ("Female", 1), ("Unknown", 1)]⟩)] (by decide)⟩

/-- Claim C5, counterexample to the unrestricted statement: the
response text 42 is not a syntactically valid list-of-strings literal,
yet the resolver raises no parse failure and returns the non-list value
42 as the placeholder result. -/
theorem identify_nonlist_response_counterexample :
    isValidStringListLiteral ("42") = false ∧
    identify_placeholder_strings (fun _ => ("42")) dfSex [("Sex")] =
      Except.ok (PyValue.int 42) := by
  decide

theorem objectDtype_eq_not_strictlyNumeric (cells : List Cell) :
    columnIsObjectDtype cells = !(columnIsStrictlyNumeric cells) := by
  induction cells with
  | nil => rfl
  | cons c rest ih =>
    simp only [columnIsObjectDtype, columnIsStrictlyNumeric, List.any_cons,
      List.all_cons] at ih ⊢
    cases c <;> simp [isObjectDtypeCell, isStrictlyNumericTypeCell, Bool.not_and, ih]

/-- Claim C8: the default column selection (the object-dtype columns)
is exactly the list of columns whose values are not already of a
strictly numeric type. -/
theorem default_selection_non_numeric (df : DataFrame) :
    selectObjectColumns df =
      (df.cols.filter (fun p => !(columnIsStrictlyNumeric p.2))).map Prod.fst := by
  unfold selectObjectColumns
  congr 1
  apply List.filter_congr
  intro p _
  exact objectDtype_eq_not_strictlyNumeric p.2
example : pyMatchNumeric ("N/A") = false := by decide
example : pyMatchNumeric ("-") = false := by decide
example : pyMatchNumeric ("-1.5e-3") = true := by decide
example : pyMatchNumeric ("1.") = false := by decide
example : pyMatchNumeric (".5") = true := by decide
example : pyMatchNumeric ("nan") = false := by decide
